import Mathlib

/-!
Shallow embedding of the box-fit pixel-camera plugin.

The source consists of two Rust modules:
  * box_fit_camera.rs — the orthographic projection state (BoxFitProjection)
    with its update and from_resolution operations;
  * box_fit_border.rs — the border decorator system (resize_borders) placing
    four opaque bars around the fitted virtual-resolution rectangle.

f32 values are idealised as exact rationals (ℚ); the spec states its
floating-point claims up to tolerance, and the rational idealisation makes
them exact.  Rust i32 casts and f32 rounding become explicit integer-valued
operations on ℚ.
-/

namespace BoxFit

/-- Truncation toward zero of a rational, the behaviour of the Rust
f32-to-i32 cast on in-range values: floor for nonnegative arguments,
and the negated floor of the negation otherwise. -/
def truncQ (q : ℚ) : ℤ :=
  if 0 ≤ q then ⌊q⌋ else -⌊-q⌋

/-- Rounding half away from zero, the behaviour of the Rust f32 round:
floor of q + 1/2 for nonnegative q, mirrored through negation otherwise. -/
def rround (q : ℚ) : ℤ :=
  if 0 ≤ q then ⌊q + 1/2⌋ else -⌊-q + 1/2⌋

/-- Embedding of struct BoxFitProjection (box_fit_camera.rs).  The derived
f32 fields are rationals; virtual_width and virtual_height are i32. -/
structure BoxFitProjection where
  left : ℚ
  right : ℚ
  bottom : ℚ
  top : ℚ
  near : ℚ
  far : ℚ
  zoom : ℚ
  virtual_width : ℤ
  virtual_height : ℤ
  centered : Bool
deriving DecidableEq

/-- Embedding of CameraProjection::update for BoxFitProjection
(box_fit_camera.rs, lines 111-130).  The i32 division of the truncated
actual extent by 2 is Int.tdiv, the Rust toward-zero integer division. -/
def update (p : BoxFitProjection) (width height : ℚ) : BoxFitProjection :=
  let zoom_x := width / (p.virtual_width : ℚ)
  let zoom_y := height / (p.virtual_height : ℚ)
  let zoom := min zoom_x zoom_y
  let actual_width := width / zoom
  let actual_height := height / zoom
  if p.centered then
    let left : ℚ := (-((truncQ actual_width).tdiv 2) : ℤ)
    let bottom : ℚ := (-((truncQ actual_height).tdiv 2) : ℤ)
    { p with zoom := zoom,
             left := left, right := left + actual_width,
             bottom := bottom, top := bottom + actual_height }
  else
    { p with zoom := zoom,
             left := 0, right := actual_width,
             bottom := 0, top := actual_height }

/-- Embedding of BoxFitProjection::from_resolution (box_fit_camera.rs,
lines 59-74): initial field values, then update with the virtual
resolution itself as the window size. -/
def from_resolution (width height : ℤ) : BoxFitProjection :=
  update
    { left := -1, right := 1, bottom := -1, top := 1,
      near := 0.0, far := 1000.0,
      virtual_width := width, virtual_height := height,
      zoom := 1.0, centered := true }
    (width : ℚ) (height : ℚ)

/-- Embedding of the Default impl for BoxFitProjection
(box_fit_camera.rs, lines 137-141). -/
def default_projection : BoxFitProjection :=
  from_resolution 640 480

/-- 2-component f32 vector (bevy Vec2), rational idealisation. -/
structure Vec2 where
  x : ℚ
  y : ℚ
deriving DecidableEq

/-- 3-component f32 vector (bevy Vec3), rational idealisation. -/
structure Vec3 where
  x : ℚ
  y : ℚ
  z : ℚ
deriving DecidableEq

/-- Camera / sprite transform; only the translation is relevant to the
embedded systems (resize_borders writes transforms created with
Transform::from_xyz, which fixes rotation and scale to the identity). -/
structure Transform where
  translation : Vec3
deriving DecidableEq

/-- Transform::from_xyz. -/
def Transform.from_xyz (x y z : ℚ) : Transform :=
  { translation := { x := x, y := y, z := z } }

/-- The Border tag component (box_fit_border.rs). -/
inductive Border where
  | Left
  | Right
  | Top
  | Bottom
deriving DecidableEq

/-- The sprite component; resize_borders only touches its size. -/
structure Sprite where
  size : Vec2
deriving DecidableEq

/-- One border rectangle entity: its sprite, transform and side tag. -/
structure BorderEntity where
  sprite : Sprite
  transform : Transform
  border : Border
deriving DecidableEq

/-- The local variable left of resize_borders (box_fit_border.rs,
lines 82-88): camera translation x, recentered by the rounded half
virtual width when the projection is centered. -/
def border_left (projection : BoxFitProjection) (camera : Transform) : ℚ :=
  camera.translation.x +
    if projection.centered then
      (-(rround ((projection.virtual_width : ℚ) / 2)) : ℤ)
    else 0

/-- The local variable bottom of resize_borders (box_fit_border.rs,
lines 90-95): camera translation y, recentered by the rounded negated
half virtual height when the projection is centered. -/
def border_bottom (projection : BoxFitProjection) (camera : Transform) : ℚ :=
  camera.translation.y +
    if projection.centered then
      ((rround (-(projection.virtual_height : ℚ) / 2)) : ℤ)
    else 0

/-- The loop body of resize_borders (box_fit_border.rs, lines 97-116):
overwrite the transform and sprite size of one border entity according to its
side tag. -/
def place_border (projection : BoxFitProjection) (camera : Transform)
    (e : BorderEntity) : BorderEntity :=
  let z := projection.far - 0.2
  let width : ℚ := (projection.virtual_width : ℚ)
  let height : ℚ := (projection.virtual_height : ℚ)
  let left := border_left projection camera
  let right := left + width
  let bottom := border_bottom projection camera
  let top := bottom + height
  match e.border with
  | Border.Left =>
    { e with transform := Transform.from_xyz (left - width) (bottom - height) z,
             sprite := { size := { x := width, y := 3 * height } } }
  | Border.Right =>
    { e with transform := Transform.from_xyz right (bottom - height) z,
             sprite := { size := { x := width, y := 3 * height } } }
  | Border.Top =>
    { e with transform := Transform.from_xyz (left - width) top z,
             sprite := { size := { x := 3 * width, y := height } } }
  | Border.Bottom =>
    { e with transform := Transform.from_xyz (left - width) (bottom - height) z,
             sprite := { size := { x := 3 * width, y := height } } }

/-- Embedding of the system resize_borders (box_fit_border.rs, lines
78-117).  The camera query yields at most one (projection, transform)
pair (cameras.iter().next()); when none matches, the body is skipped and
every border entity keeps its state. -/
def resize_borders (cameras : Option (BoxFitProjection × Transform))
    (borders : List BorderEntity) : List BorderEntity :=
  match cameras with
  | none => borders
  | some (projection, transform) =>
    borders.map (place_border projection transform)

/-- The Border::Left entity as spawned by spawn_borders (box_fit_border.rs),
with the bevy default sprite size and transform. -/
def spawn_left : BorderEntity :=
  { sprite := { size := { x := 1, y := 1 } },
    transform := Transform.from_xyz 0 0 0, border := Border.Left }

/-- The Border::Right entity as spawned by spawn_borders. -/
def spawn_right : BorderEntity :=
  { sprite := { size := { x := 1, y := 1 } },
    transform := Transform.from_xyz 0 0 0, border := Border.Right }

/-- The Border::Top entity as spawned by spawn_borders. -/
def spawn_top : BorderEntity :=
  { sprite := { size := { x := 1, y := 1 } },
    transform := Transform.from_xyz 0 0 0, border := Border.Top }

/-- The Border::Bottom entity as spawned by spawn_borders. -/
def spawn_bottom : BorderEntity :=
  { sprite := { size := { x := 1, y := 1 } },
    transform := Transform.from_xyz 0 0 0, border := Border.Bottom }

/-- The four border entities as spawned by spawn_borders (box_fit_border.rs,
lines 29-69). -/
def initial_borders : List BorderEntity :=
  [spawn_left, spawn_right, spawn_top, spawn_bottom]

/-- Modelled from the spec: the SpriteQuad mesh resource comes from the
crate root module, which is not among the given sources; per the spec the
four bars produced from it "fully occlude the area outside the
virtual-resolution rectangle", which fixes the quad anchor at the
bottom-left corner of the sprite.  A border entity therefore covers the axis-aligned
closed rectangle extending from its transform translation by its sprite
size. -/
def coversPoint (e : BorderEntity) (x y : ℚ) : Prop :=
  e.transform.translation.x ≤ x ∧
  x ≤ e.transform.translation.x + e.sprite.size.x ∧
  e.transform.translation.y ≤ y ∧
  y ≤ e.transform.translation.y + e.sprite.size.y

instance (e : BorderEntity) (x y : ℚ) : Decidable (coversPoint e x y) := by
  unfold coversPoint
  infer_instance

/-- A point lies in the visible region of the projection, the world-space
rectangle [left, right] × [bottom, top] shifted by the camera translation. -/
def visible_contains (projection : BoxFitProjection) (camera : Transform)
    (x y : ℚ) : Prop :=
  camera.translation.x + projection.left ≤ x ∧
  x ≤ camera.translation.x + projection.right ∧
  camera.translation.y + projection.bottom ≤ y ∧
  y ≤ camera.translation.y + projection.top

/-- A point lies in the world-space virtual-resolution rectangle: the
virtual_width × virtual_height rectangle whose bottom-left corner is the
(left, bottom) of the border decorator. -/
def virtual_rect_contains (projection : BoxFitProjection) (camera : Transform)
    (x y : ℚ) : Prop :=
  border_left projection camera ≤ x ∧
  x ≤ border_left projection camera + (projection.virtual_width : ℚ) ∧
  border_bottom projection camera ≤ y ∧
  y ≤ border_bottom projection camera + (projection.virtual_height : ℚ)

/-- A point is covered by at least one of the four border rectangles that
resize_borders produces. -/
def covered_by_borders (projection : BoxFitProjection) (camera : Transform)
    (x y : ℚ) : Prop :=
  ∃ e ∈ resize_borders (some (projection, camera)) initial_borders,
    coversPoint e x y

/-- The borders-fully-occlude property claimed by the spec: every point of
the visible region outside the virtual-resolution rectangle is covered by
some border rectangle. -/
def borders_occlude_outside (projection : BoxFitProjection)
    (camera : Transform) : Prop :=
  ∀ x y : ℚ, visible_contains projection camera x y →
    ¬ virtual_rect_contains projection camera x y →
    covered_by_borders projection camera x y

/-- A point lies in the outer frame of the four bars: the rectangle one
virtual width beyond (left, bottom) on the left, two on the right, and
likewise vertically — exactly the extent of the union of the bars. -/
def outer_frame_contains (projection : BoxFitProjection) (camera : Transform)
    (x y : ℚ) : Prop :=
  border_left projection camera - (projection.virtual_width : ℚ) ≤ x ∧
  x ≤ border_left projection camera + 2 * (projection.virtual_width : ℚ) ∧
  border_bottom projection camera - (projection.virtual_height : ℚ) ≤ y ∧
  y ≤ border_bottom projection camera + 2 * (projection.virtual_height : ℚ)

/-! ## Helper lemmas -/

theorem update_zoom (p : BoxFitProjection) (W H : ℚ) :
    (update p W H).zoom
      = min (W / (p.virtual_width : ℚ)) (H / (p.virtual_height : ℚ)) := by
  cases hc : p.centered <;> simp [update, hc]

theorem update_near (p : BoxFitProjection) (W H : ℚ) :
    (update p W H).near = p.near := by
  cases hc : p.centered <;> simp [update, hc]

theorem update_far (p : BoxFitProjection) (W H : ℚ) :
    (update p W H).far = p.far := by
  cases hc : p.centered <;> simp [update, hc]

theorem update_virtual_width (p : BoxFitProjection) (W H : ℚ) :
    (update p W H).virtual_width = p.virtual_width := by
  cases hc : p.centered <;> simp [update, hc]

theorem update_virtual_height (p : BoxFitProjection) (W H : ℚ) :
    (update p W H).virtual_height = p.virtual_height := by
  cases hc : p.centered <;> simp [update, hc]

theorem update_centered (p : BoxFitProjection) (W H : ℚ) :
    (update p W H).centered = p.centered := by
  cases hc : p.centered <;> simp [update, hc]

theorem update_left_centered (p : BoxFitProjection) (W H : ℚ)
    (hc : p.centered = true) :
    (update p W H).left =
      ((-((truncQ (W / min (W / (p.virtual_width : ℚ))
          (H / (p.virtual_height : ℚ)))).tdiv 2) : ℤ) : ℚ) := by
  simp [update, hc]

theorem update_bottom_centered (p : BoxFitProjection) (W H : ℚ)
    (hc : p.centered = true) :
    (update p W H).bottom =
      ((-((truncQ (H / min (W / (p.virtual_width : ℚ))
          (H / (p.virtual_height : ℚ)))).tdiv 2) : ℤ) : ℚ) := by
  simp [update, hc]

theorem update_left_noncentered (p : BoxFitProjection) (W H : ℚ)
    (hc : p.centered = false) :
    (update p W H).left = 0 := by
  simp [update, hc]

theorem update_bottom_noncentered (p : BoxFitProjection) (W H : ℚ)
    (hc : p.centered = false) :
    (update p W H).bottom = 0 := by
  simp [update, hc]

theorem update_right_sub_left (p : BoxFitProjection) (W H : ℚ) :
    (update p W H).right - (update p W H).left
      = W / min (W / (p.virtual_width : ℚ)) (H / (p.virtual_height : ℚ)) := by
  cases hc : p.centered <;> simp [update, hc]

theorem update_top_sub_bottom (p : BoxFitProjection) (W H : ℚ) :
    (update p W H).top - (update p W H).bottom
      = H / min (W / (p.virtual_width : ℚ)) (H / (p.virtual_height : ℚ)) := by
  cases hc : p.centered <;> simp [update, hc]

theorem floor_div_two (q : ℚ) : ⌊q / 2⌋ = ⌊q⌋ / 2 := by
  have hm1 : ((⌊q⌋ : ℤ) : ℚ) ≤ q := Int.floor_le q
  have hm2 : q < (⌊q⌋ : ℚ) + 1 := Int.lt_floor_add_one q
  have hd1 : 2 * (⌊q⌋ / 2) ≤ ⌊q⌋ := by omega
  have hd2 : ⌊q⌋ ≤ 2 * (⌊q⌋ / 2) + 1 := by omega
  have hd1' : 2 * ((⌊q⌋ / 2 : ℤ) : ℚ) ≤ ((⌊q⌋ : ℤ) : ℚ) := by exact_mod_cast hd1
  have hd2' : ((⌊q⌋ : ℤ) : ℚ) ≤ 2 * ((⌊q⌋ / 2 : ℤ) : ℚ) + 1 := by exact_mod_cast hd2
  rw [Int.floor_eq_iff]
  constructor
  · linarith
  · linarith

theorem truncQ_of_nonneg (q : ℚ) (hq : 0 ≤ q) : truncQ q = ⌊q⌋ := by
  simp [truncQ, hq]

theorem truncQ_tdiv_two (q : ℚ) (hq : 0 ≤ q) :
    (truncQ q).tdiv 2 = truncQ (q / 2) := by
  rw [truncQ_of_nonneg q hq, truncQ_of_nonneg (q / 2) (by positivity),
    Int.tdiv_eq_ediv (Int.floor_nonneg.mpr hq) (by norm_num), floor_div_two]

theorem place_border_idem (projection : BoxFitProjection) (camera : Transform)
    (e : BorderEntity) :
    place_border projection camera (place_border projection camera e)
      = place_border projection camera e := by
  rcases e with ⟨s, tr, b⟩
  cases b <;> rfl

/-- A sample projection configuration (the default 640 × 480 virtual
resolution before any update), used to instantiate witnesses. -/
def sample_config : BoxFitProjection :=
  { left := -1, right := 1, bottom := -1, top := 1,
    near := 0.0, far := 1000.0,
    virtual_width := 640, virtual_height := 480,
    zoom := 1.0, centered := true }

/-! ## Claims -/

/-- Claim C1: for every window size (W, H) and virtual resolution with
vw, vh > 0, after update(W, H) the projection satisfies
zoom = min(W / vw, H / vh), (right - left) * zoom = W and
(top - bottom) * zoom = H, in both centered and non-centered mode. -/
theorem update_zoom_min_extents (p : BoxFitProjection) (W H : ℚ)
    (hW : 0 < W) (hH : 0 < H)
    (hvw : 0 < p.virtual_width) (hvh : 0 < p.virtual_height) :
    (update p W H).zoom
        = min (W / (p.virtual_width : ℚ)) (H / (p.virtual_height : ℚ)) ∧
    ((update p W H).right - (update p W H).left) * (update p W H).zoom = W ∧
    ((update p W H).top - (update p W H).bottom) * (update p W H).zoom = H := by
  have hvw' : (0 : ℚ) < (p.virtual_width : ℚ) := by exact_mod_cast hvw
  have hvh' : (0 : ℚ) < (p.virtual_height : ℚ) := by exact_mod_cast hvh
  have hz : 0 < min (W / (p.virtual_width : ℚ)) (H / (p.virtual_height : ℚ)) :=
    lt_min (div_pos hW hvw') (div_pos hH hvh')
  refine ⟨update_zoom p W H, ?_, ?_⟩
  · rw [update_right_sub_left, update_zoom]
    exact div_mul_cancel₀ W hz.ne'
  · rw [update_top_sub_bottom, update_zoom]
    exact div_mul_cancel₀ H hz.ne'

theorem update_zoom_min_extents_witness :
    0 < (640 : ℚ) ∧ 0 < (480 : ℚ) ∧
    0 < sample_config.virtual_width ∧ 0 < sample_config.virtual_height ∧
    ((update sample_config 640 480).zoom
        = min ((640 : ℚ) / (sample_config.virtual_width : ℚ))
            ((480 : ℚ) / (sample_config.virtual_height : ℚ)) ∧
     ((update sample_config 640 480).right
        - (update sample_config 640 480).left)
          * (update sample_config 640 480).zoom = 640 ∧
     ((update sample_config 640 480).top
        - (update sample_config 640 480).bottom)
          * (update sample_config 640 480).zoom = 480) :=
  ⟨by decide, by decide, by decide, by decide,
   update_zoom_min_extents sample_config 640 480
     (by decide) (by decide) (by decide) (by decide)⟩

/-- Claim C2: after update(W, H), in centered mode the projection has
left = -trunc(actual_width / 2), right = left + actual_width,
bottom = -trunc(actual_height / 2) and top = bottom + actual_height
(actual extents W / zoom and H / zoom); in non-centered mode left = 0 and
bottom = 0; and in the concrete case vw = 640, vh = 480, W = 640, H = 480,
centered, the result is zoom 1, left -320, right 320, bottom -240,
top 240. -/
theorem update_centered_truncation (p : BoxFitProjection) (W H : ℚ)
    (hW : 0 < W) (hH : 0 < H)
    (hvw : 0 < p.virtual_width) (hvh : 0 < p.virtual_height) :
    (p.centered = true →
      (update p W H).left
          = ((-(truncQ (W / (update p W H).zoom / 2)) : ℤ) : ℚ) ∧
      (update p W H).right
          = (update p W H).left + W / (update p W H).zoom ∧
      (update p W H).bottom
          = ((-(truncQ (H / (update p W H).zoom / 2)) : ℤ) : ℚ) ∧
      (update p W H).top
          = (update p W H).bottom + H / (update p W H).zoom) ∧
    (p.centered = false →
      (update p W H).left = 0 ∧ (update p W H).bottom = 0) ∧
    ((from_resolution 640 480).zoom = 1 ∧
     (from_resolution 640 480).left = -320 ∧
     (from_resolution 640 480).right = 320 ∧
     (from_resolution 640 480).bottom = -240 ∧
     (from_resolution 640 480).top = 240) := by
  have hvw' : (0 : ℚ) < (p.virtual_width : ℚ) := by exact_mod_cast hvw
  have hvh' : (0 : ℚ) < (p.virtual_height : ℚ) := by exact_mod_cast hvh
  have hz : 0 < min (W / (p.virtual_width : ℚ)) (H / (p.virtual_height : ℚ)) :=
    lt_min (div_pos hW hvw') (div_pos hH hvh')
  refine ⟨?_, ?_, ?_⟩
  · intro hc
    have haw : 0 ≤ W / min (W / (p.virtual_width : ℚ)) (H / (p.virtual_height : ℚ)) :=
      (div_pos hW hz).le
    have hah : 0 ≤ H / min (W / (p.virtual_width : ℚ)) (H / (p.virtual_height : ℚ)) :=
      (div_pos hH hz).le
    refine ⟨?_, ?_, ?_, ?_⟩
    · rw [update_left_centered p W H hc, update_zoom, truncQ_tdiv_two _ haw]
    · have h := update_right_sub_left p W H
      rw [update_zoom]
      linarith
    · rw [update_bottom_centered p W H hc, update_zoom, truncQ_tdiv_two _ hah]
    · have h := update_top_sub_bottom p W H
      rw [update_zoom]
      linarith
  · intro hc
    exact ⟨update_left_noncentered p W H hc, update_bottom_noncentered p W H hc⟩
  · norm_num [from_resolution, update, truncQ, Int.tdiv]

theorem update_centered_truncation_witness :
    0 < (640 : ℚ) ∧ 0 < (480 : ℚ) ∧
    0 < sample_config.virtual_width ∧ 0 < sample_config.virtual_height ∧
    (sample_config.centered = true →
      (update sample_config 640 480).left
        = ((-(truncQ ((640 : ℚ) / (update sample_config 640 480).zoom / 2)) : ℤ) : ℚ) ∧
      (update sample_config 640 480).right
        = (update sample_config 640 480).left
            + (640 : ℚ) / (update sample_config 640 480).zoom ∧
      (update sample_config 640 480).bottom
        = ((-(truncQ ((480 : ℚ) / (update sample_config 640 480).zoom / 2)) : ℤ) : ℚ) ∧
      (update sample_config 640 480).top
        = (update sample_config 640 480).bottom
            + (480 : ℚ) / (update sample_config 640 480).zoom) :=
  ⟨by decide, by decide, by decide, by decide,
   (update_centered_truncation sample_config 640 480
     (by decide) (by decide) (by decide) (by decide)).1⟩

/-- Claim C5: if no camera entity with a BoxFitProjection matches, the
resize_borders system leaves every existing border entity unchanged. -/
theorem resize_borders_no_camera (borders : List BorderEntity) :
    resize_borders none borders = borders := rfl

/-- Claim C7: resize_borders is idempotent — running it twice with the
same projection and camera transform yields the same border entities as
running it once. -/
theorem resize_borders_idempotent (projection : BoxFitProjection)
    (camera : Transform) (borders : List BorderEntity) :
    resize_borders (some (projection, camera))
        (resize_borders (some (projection, camera)) borders)
      = resize_borders (some (projection, camera)) borders := by
  simp only [resize_borders, List.map_map]
  exact List.map_congr_left fun e _ => place_border_idem projection camera e

/-- Claim C8: update changes only the derived fields; near, far,
virtual_width, virtual_height and centered are preserved, with near = 0
and far = 1000 as set by from_resolution for any resolution.  All derived
fields are produced by the one pure call, so no partial-update state is
observable. -/
theorem update_preserves_config (p : BoxFitProjection) (W H : ℚ) (w h : ℤ) :
    (update p W H).near = p.near ∧
    (update p W H).far = p.far ∧
    (update p W H).virtual_width = p.virtual_width ∧
    (update p W H).virtual_height = p.virtual_height ∧
    (update p W H).centered = p.centered ∧
    (from_resolution w h).near = 0 ∧
    (from_resolution w h).far = 1000 :=
  ⟨update_near p W H, update_far p W H, update_virtual_width p W H,
   update_virtual_height p W H, update_centered p W H,
   by norm_num [from_resolution, update_near],
   by norm_num [from_resolution, update_far]⟩

/-- Claim C6: in centered mode the midpoints of [left, right] and
[bottom, top] after update differ from 0 by at most 1 (the
integer-truncation bias), for any positive window and virtual sizes. -/
theorem update_centered_midpoint_bias (p : BoxFitProjection) (W H : ℚ)
    (hW : 0 < W) (hH : 0 < H)
    (hvw : 0 < p.virtual_width) (hvh : 0 < p.virtual_height)
    (hc : p.centered = true) :
    |((update p W H).left + (update p W H).right) / 2| ≤ 1 ∧
    |((update p W H).bottom + (update p W H).top) / 2| ≤ 1 := by
  have hvw' : (0 : ℚ) < (p.virtual_width : ℚ) := by exact_mod_cast hvw
  have hvh' : (0 : ℚ) < (p.virtual_height : ℚ) := by exact_mod_cast hvh
  have hz : 0 < min (W / (p.virtual_width : ℚ)) (H / (p.virtual_height : ℚ)) :=
    lt_min (div_pos hW hvw') (div_pos hH hvh')
  have key : ∀ a : ℚ, 0 < a →
      |((-(((truncQ a).tdiv 2 : ℤ) : ℚ))
          + ((-(((truncQ a).tdiv 2 : ℤ) : ℚ)) + a)) / 2| ≤ 1 := by
    intro a ha
    have h1 : ((⌊a⌋ : ℤ) : ℚ) ≤ a := Int.floor_le a
    have h2 : a < ((⌊a⌋ : ℤ) : ℚ) + 1 := Int.lt_floor_add_one a
    have ht : truncQ a = ⌊a⌋ := truncQ_of_nonneg a ha.le
    have htd : (⌊a⌋).tdiv 2 = ⌊a⌋ / 2 :=
      Int.tdiv_eq_ediv (Int.floor_nonneg.mpr ha.le) (by norm_num)
    have hd1 : 2 * (⌊a⌋ / 2) ≤ ⌊a⌋ := by omega
    have hd2 : ⌊a⌋ ≤ 2 * (⌊a⌋ / 2) + 1 := by omega
    have hd1' : 2 * ((⌊a⌋ / 2 : ℤ) : ℚ) ≤ ((⌊a⌋ : ℤ) : ℚ) := by exact_mod_cast hd1
    have hd2' : ((⌊a⌋ : ℤ) : ℚ) ≤ 2 * ((⌊a⌋ / 2 : ℤ) : ℚ) + 1 := by
      exact_mod_cast hd2
    rw [ht, htd, abs_le]
    constructor <;> linarith
  constructor
  · have hL := update_left_centered p W H hc
    have hR := update_right_sub_left p W H
    have hR' : (update p W H).right = (update p W H).left
        + W / min (W / (p.virtual_width : ℚ)) (H / (p.virtual_height : ℚ)) := by
      linarith
    rw [hR', hL]
    exact key _ (div_pos hW hz)
  · have hB := update_bottom_centered p W H hc
    have hT := update_top_sub_bottom p W H
    have hT' : (update p W H).top = (update p W H).bottom
        + H / min (W / (p.virtual_width : ℚ)) (H / (p.virtual_height : ℚ)) := by
      linarith
    rw [hT', hB]
    exact key _ (div_pos hH hz)

theorem update_centered_midpoint_bias_witness :
    0 < (640 : ℚ) ∧ 0 < (480 : ℚ) ∧
    0 < sample_config.virtual_width ∧ 0 < sample_config.virtual_height ∧
    sample_config.centered = true ∧
    (|((update sample_config 640 480).left
        + (update sample_config 640 480).right) / 2| ≤ 1 ∧
     |((update sample_config 640 480).bottom
        + (update sample_config 640 480).top) / 2| ≤ 1) :=
  ⟨by decide, by decide, by decide, by decide, by decide,
   update_centered_midpoint_bias sample_config 640 480
     (by decide) (by decide) (by decide) (by decide) (by decide)⟩

/-- Claim C10: from_resolution(w, h) with w, h > 0 yields a centered
projection with near = 0, far = 1000, zoom = 1, virtual size (w, h) and
extents right - left = w, top - bottom = h; the Default instance is
from_resolution 640 480. -/
theorem from_resolution_default_spec (w h : ℤ) (hw : 0 < w) (hh : 0 < h) :
    (from_resolution w h).centered = true ∧
    (from_resolution w h).near = 0 ∧
    (from_resolution w h).far = 1000 ∧
    (from_resolution w h).zoom = 1 ∧
    (from_resolution w h).virtual_width = w ∧
    (from_resolution w h).virtual_height = h ∧
    (from_resolution w h).right - (from_resolution w h).left = (w : ℚ) ∧
    (from_resolution w h).top - (from_resolution w h).bottom = (h : ℚ) ∧
    default_projection = from_resolution 640 480 := by
  have hw' : (0 : ℚ) < (w : ℚ) := by exact_mod_cast hw
  have hh' : (0 : ℚ) < (h : ℚ) := by exact_mod_cast hh
  have hmin : min ((w : ℚ) / (w : ℚ)) ((h : ℚ) / (h : ℚ)) = 1 := by
    rw [div_self hw'.ne', div_self hh'.ne', min_self]
  refine ⟨?_, ?_, ?_, ?_, ?_, ?_, ?_, ?_, rfl⟩
  · simp [from_resolution, update_centered]
  · norm_num [from_resolution, update_near]
  · norm_num [from_resolution, update_far]
  · simp only [from_resolution, update_zoom]
    simpa using hmin
  · simp [from_resolution, update_virtual_width]
  · simp [from_resolution, update_virtual_height]
  · simp only [from_resolution, update_right_sub_left]
    simp only [hmin]
    norm_num
  · simp only [from_resolution, update_top_sub_bottom]
    simp only [hmin]
    norm_num

theorem from_resolution_default_spec_witness :
    0 < (640 : ℤ) ∧ 0 < (480 : ℤ) ∧
    ((from_resolution 640 480).centered = true ∧
     (from_resolution 640 480).near = 0 ∧
     (from_resolution 640 480).far = 1000 ∧
     (from_resolution 640 480).zoom = 1 ∧
     (from_resolution 640 480).virtual_width = 640 ∧
     (from_resolution 640 480).virtual_height = 480 ∧
     (from_resolution 640 480).right - (from_resolution 640 480).left = ((640 : ℤ) : ℚ) ∧
     (from_resolution 640 480).top - (from_resolution 640 480).bottom = ((480 : ℤ) : ℚ) ∧
     default_projection = from_resolution 640 480) :=
  ⟨by decide, by decide,
   from_resolution_default_spec 640 480 (by decide) (by decide)⟩

theorem from_resolution_centered (w h : ℤ) :
    (from_resolution w h).centered = true := by
  simp [from_resolution, update_centered]

theorem from_resolution_virtual_width (w h : ℤ) :
    (from_resolution w h).virtual_width = w := by
  simp [from_resolution, update_virtual_width]

theorem from_resolution_virtual_height (w h : ℤ) :
    (from_resolution w h).virtual_height = h := by
  simp [from_resolution, update_virtual_height]

theorem update_left_self (p : BoxFitProjection) (hc : p.centered = true)
    (hw : 0 < p.virtual_width) (hh : 0 < p.virtual_height) :
    (update p (p.virtual_width : ℚ) (p.virtual_height : ℚ)).left
      = ((-(p.virtual_width.tdiv 2) : ℤ) : ℚ) := by
  have hw' : (0 : ℚ) < (p.virtual_width : ℚ) := by exact_mod_cast hw
  have hh' : (0 : ℚ) < (p.virtual_height : ℚ) := by exact_mod_cast hh
  rw [update_left_centered p _ _ hc, div_self hw'.ne', div_self hh'.ne',
    min_self, div_one, truncQ_of_nonneg _ hw'.le, Int.floor_intCast]

theorem update_bottom_self (p : BoxFitProjection) (hc : p.centered = true)
    (hw : 0 < p.virtual_width) (hh : 0 < p.virtual_height) :
    (update p (p.virtual_width : ℚ) (p.virtual_height : ℚ)).bottom
      = ((-(p.virtual_height.tdiv 2) : ℤ) : ℚ) := by
  have hw' : (0 : ℚ) < (p.virtual_width : ℚ) := by exact_mod_cast hw
  have hh' : (0 : ℚ) < (p.virtual_height : ℚ) := by exact_mod_cast hh
  rw [update_bottom_centered p _ _ hc, div_self hw'.ne', div_self hh'.ne',
    min_self, div_one, truncQ_of_nonneg _ hh'.le, Int.floor_intCast]

theorem from_resolution_left (w h : ℤ) (hw : 0 < w) (hh : 0 < h) :
    (from_resolution w h).left = ((-(w.tdiv 2) : ℤ) : ℚ) :=
  update_left_self
    { left := -1, right := 1, bottom := -1, top := 1,
      near := 0.0, far := 1000.0,
      virtual_width := w, virtual_height := h,
      zoom := 1.0, centered := true } rfl hw hh

theorem from_resolution_bottom (w h : ℤ) (hw : 0 < w) (hh : 0 < h) :
    (from_resolution w h).bottom = ((-(h.tdiv 2) : ℤ) : ℚ) :=
  update_bottom_self
    { left := -1, right := 1, bottom := -1, top := 1,
      near := 0.0, far := 1000.0,
      virtual_width := w, virtual_height := h,
      zoom := 1.0, centered := true } rfl hw hh

theorem border_left_centered (p : BoxFitProjection) (camera : Transform)
    (hc : p.centered = true) :
    border_left p camera = camera.translation.x
      + ((-(rround ((p.virtual_width : ℚ) / 2)) : ℤ) : ℚ) := by
  simp [border_left, hc]

theorem border_bottom_centered (p : BoxFitProjection) (camera : Transform)
    (hc : p.centered = true) :
    border_bottom p camera = camera.translation.y
      + ((rround (-(p.virtual_height : ℚ) / 2) : ℤ) : ℚ) := by
  simp [border_bottom, hc]

theorem rround_add_half (n : ℤ) (hn : 0 ≤ (n : ℚ) + 1 / 2) :
    rround ((n : ℚ) + 1 / 2) = n + 1 := by
  rw [rround, if_pos hn]
  have harg : (n : ℚ) + 1 / 2 + 1 / 2 = ((n + 1 : ℤ) : ℚ) := by
    push_cast
    ring
  rw [harg, Int.floor_intCast]

theorem rround_of_neg (q : ℚ) (h : ¬ 0 ≤ q) :
    rround q = -⌊-q + 1 / 2⌋ := by
  rw [rround, if_neg h]

/-- Claim C9: in centered mode the border decorator and the projection
compute their shared origin differently — for odd virtual extents 2k+1
and 2m+1, with the window at the virtual resolution and the camera at the
origin, the border decorator computes left = -(k+1) (and bottom = -(m+1))
while the projection computes left = -k (and bottom = -m):
they differ by exactly 1 on each axis. -/
theorem centered_origin_discrepancy (k m : ℕ) :
    border_left (from_resolution (2 * (k : ℤ) + 1) (2 * (m : ℤ) + 1))
        (Transform.from_xyz 0 0 0) = -((k : ℚ) + 1) ∧
    (from_resolution (2 * (k : ℤ) + 1) (2 * (m : ℤ) + 1)).left = -(k : ℚ) ∧
    (from_resolution (2 * (k : ℤ) + 1) (2 * (m : ℤ) + 1)).left
      - border_left (from_resolution (2 * (k : ℤ) + 1) (2 * (m : ℤ) + 1))
          (Transform.from_xyz 0 0 0) = 1 ∧
    border_bottom (from_resolution (2 * (k : ℤ) + 1) (2 * (m : ℤ) + 1))
        (Transform.from_xyz 0 0 0) = -((m : ℚ) + 1) ∧
    (from_resolution (2 * (k : ℤ) + 1) (2 * (m : ℤ) + 1)).bottom = -(m : ℚ) ∧
    (from_resolution (2 * (k : ℤ) + 1) (2 * (m : ℤ) + 1)).bottom
      - border_bottom (from_resolution (2 * (k : ℤ) + 1) (2 * (m : ℤ) + 1))
          (Transform.from_xyz 0 0 0) = 1 := by
  have hw : (0 : ℤ) < 2 * (k : ℤ) + 1 := by omega
  have hh : (0 : ℤ) < 2 * (m : ℤ) + 1 := by omega
  have htdk : (2 * (k : ℤ) + 1).tdiv 2 = k := by
    rw [Int.tdiv_eq_ediv (by omega) (by norm_num)]
    omega
  have htdm : (2 * (m : ℤ) + 1).tdiv 2 = m := by
    rw [Int.tdiv_eq_ediv (by omega) (by norm_num)]
    omega
  have hpleft : (from_resolution (2 * (k : ℤ) + 1) (2 * (m : ℤ) + 1)).left
      = -(k : ℚ) := by
    rw [from_resolution_left _ _ hw hh, htdk]
    push_cast
    ring
  have hpbottom : (from_resolution (2 * (k : ℤ) + 1) (2 * (m : ℤ) + 1)).bottom
      = -(m : ℚ) := by
    rw [from_resolution_bottom _ _ hw hh, htdm]
    push_cast
    ring
  have hbleft : border_left (from_resolution (2 * (k : ℤ) + 1) (2 * (m : ℤ) + 1))
      (Transform.from_xyz 0 0 0) = -((k : ℚ) + 1) := by
    rw [border_left_centered _ _ (from_resolution_centered _ _),
      from_resolution_virtual_width]
    have harg : ((2 * (k : ℤ) + 1 : ℤ) : ℚ) / 2 = ((k : ℤ) : ℚ) + 1 / 2 := by
      push_cast
      ring
    rw [harg, rround_add_half _ (by positivity)]
    show (0 : ℚ) + _ = _
    push_cast
    ring
  have hbbottom : border_bottom (from_resolution (2 * (k : ℤ) + 1) (2 * (m : ℤ) + 1))
      (Transform.from_xyz 0 0 0) = -((m : ℚ) + 1) := by
    rw [border_bottom_centered _ _ (from_resolution_centered _ _),
      from_resolution_virtual_height]
    have hpos : (0 : ℚ) < ((m : ℤ) : ℚ) + 1 / 2 := by positivity
    have harg : -((2 * (m : ℤ) + 1 : ℤ) : ℚ) / 2 = -(((m : ℤ) : ℚ) + 1 / 2) := by
      push_cast
      ring
    rw [harg, rround_of_neg _ (not_le.mpr (by linarith))]
    have harg2 : -(-(((m : ℤ) : ℚ) + 1 / 2)) + 1 / 2 = ((m + 1 : ℤ) : ℚ) := by
      push_cast
      ring
    rw [harg2, Int.floor_intCast]
    show (0 : ℚ) + _ = _
    push_cast
    ring
  refine ⟨hbleft, hpleft, ?_, hbbottom, hpbottom, ?_⟩
  · rw [hpleft, hbleft]
    ring
  · rw [hpbottom, hbbottom]
    ring

/-- Claim C3: resize_borders places the four border rectangles at depth
far - 0.2 with exactly the positions and sizes of the spec table — Left at
(left - width, bottom - height) sized width by 3 height, Right at
(left + width, bottom - height) sized width by 3 height, Top at
(left - width, bottom + height) sized 3 width by height, Bottom at
(left - width, bottom - height) sized 3 width by height — where width and
height are the virtual pixel extents and left and bottom are the camera
translation offset by the centered recentering term (border_left,
border_bottom). -/
theorem resize_borders_placement (projection : BoxFitProjection)
    (camera : Transform) (e1 e2 e3 e4 : BorderEntity)
    (h1 : e1.border = Border.Left) (h2 : e2.border = Border.Right)
    (h3 : e3.border = Border.Top) (h4 : e4.border = Border.Bottom) :
    resize_borders (some (projection, camera)) [e1, e2, e3, e4] =
      [ { e1 with
            transform := Transform.from_xyz
              (border_left projection camera - (projection.virtual_width : ℚ))
              (border_bottom projection camera - (projection.virtual_height : ℚ))
              (projection.far - 0.2),
            sprite := { size := { x := (projection.virtual_width : ℚ),
                                  y := 3 * (projection.virtual_height : ℚ) } } },
        { e2 with
            transform := Transform.from_xyz
              (border_left projection camera + (projection.virtual_width : ℚ))
              (border_bottom projection camera - (projection.virtual_height : ℚ))
              (projection.far - 0.2),
            sprite := { size := { x := (projection.virtual_width : ℚ),
                                  y := 3 * (projection.virtual_height : ℚ) } } },
        { e3 with
            transform := Transform.from_xyz
              (border_left projection camera - (projection.virtual_width : ℚ))
              (border_bottom projection camera + (projection.virtual_height : ℚ))
              (projection.far - 0.2),
            sprite := { size := { x := 3 * (projection.virtual_width : ℚ),
                                  y := (projection.virtual_height : ℚ) } } },
        { e4 with
            transform := Transform.from_xyz
              (border_left projection camera - (projection.virtual_width : ℚ))
              (border_bottom projection camera - (projection.virtual_height : ℚ))
              (projection.far - 0.2),
            sprite := { size := { x := 3 * (projection.virtual_width : ℚ),
                                  y := (projection.virtual_height : ℚ) } } } ] := by
  simp [resize_borders, place_border, h1, h2, h3, h4]

theorem resize_borders_placement_witness :
    spawn_left.border = Border.Left ∧
    spawn_right.border = Border.Right ∧
    spawn_top.border = Border.Top ∧
    spawn_bottom.border = Border.Bottom ∧
    resize_borders (some (sample_config, Transform.from_xyz 0 0 0))
        [spawn_left, spawn_right, spawn_top, spawn_bottom] =
      [ { spawn_left with
            transform := Transform.from_xyz
              (border_left sample_config (Transform.from_xyz 0 0 0)
                - (sample_config.virtual_width : ℚ))
              (border_bottom sample_config (Transform.from_xyz 0 0 0)
                - (sample_config.virtual_height : ℚ))
              (sample_config.far - 0.2),
            sprite := { size := { x := (sample_config.virtual_width : ℚ),
                                  y := 3 * (sample_config.virtual_height : ℚ) } } },
        { spawn_right with
            transform := Transform.from_xyz
              (border_left sample_config (Transform.from_xyz 0 0 0)
                + (sample_config.virtual_width : ℚ))
              (border_bottom sample_config (Transform.from_xyz 0 0 0)
                - (sample_config.virtual_height : ℚ))
              (sample_config.far - 0.2),
            sprite := { size := { x := (sample_config.virtual_width : ℚ),
                                  y := 3 * (sample_config.virtual_height : ℚ) } } },
        { spawn_top with
            transform := Transform.from_xyz
              (border_left sample_config (Transform.from_xyz 0 0 0)
                - (sample_config.virtual_width : ℚ))
              (border_bottom sample_config (Transform.from_xyz 0 0 0)
                + (sample_config.virtual_height : ℚ))
              (sample_config.far - 0.2),
            sprite := { size := { x := 3 * (sample_config.virtual_width : ℚ),
                                  y := (sample_config.virtual_height : ℚ) } } },
        { spawn_bottom with
            transform := Transform.from_xyz
              (border_left sample_config (Transform.from_xyz 0 0 0)
                - (sample_config.virtual_width : ℚ))
              (border_bottom sample_config (Transform.from_xyz 0 0 0)
                - (sample_config.virtual_height : ℚ))
              (sample_config.far - 0.2),
            sprite := { size := { x := 3 * (sample_config.virtual_width : ℚ),
                                  y := (sample_config.virtual_height : ℚ) } } } ] :=
  ⟨rfl, rfl, rfl, rfl,
   resize_borders_placement sample_config (Transform.from_xyz 0 0 0)
     spawn_left spawn_right spawn_top spawn_bottom rfl rfl rfl rfl⟩

theorem place_border_spawn_left (projection : BoxFitProjection)
    (camera : Transform) :
    place_border projection camera spawn_left =
      { sprite := { size := { x := (projection.virtual_width : ℚ),
                              y := 3 * (projection.virtual_height : ℚ) } },
        transform := Transform.from_xyz
          (border_left projection camera - (projection.virtual_width : ℚ))
          (border_bottom projection camera - (projection.virtual_height : ℚ))
          (projection.far - 0.2),
        border := Border.Left } := rfl

theorem place_border_spawn_right (projection : BoxFitProjection)
    (camera : Transform) :
    place_border projection camera spawn_right =
      { sprite := { size := { x := (projection.virtual_width : ℚ),
                              y := 3 * (projection.virtual_height : ℚ) } },
        transform := Transform.from_xyz
          (border_left projection camera + (projection.virtual_width : ℚ))
          (border_bottom projection camera - (projection.virtual_height : ℚ))
          (projection.far - 0.2),
        border := Border.Right } := rfl

theorem place_border_spawn_top (projection : BoxFitProjection)
    (camera : Transform) :
    place_border projection camera spawn_top =
      { sprite := { size := { x := 3 * (projection.virtual_width : ℚ),
                              y := (projection.virtual_height : ℚ) } },
        transform := Transform.from_xyz
          (border_left projection camera - (projection.virtual_width : ℚ))
          (border_bottom projection camera + (projection.virtual_height : ℚ))
          (projection.far - 0.2),
        border := Border.Top } := rfl

theorem place_border_spawn_bottom (projection : BoxFitProjection)
    (camera : Transform) :
    place_border projection camera spawn_bottom =
      { sprite := { size := { x := 3 * (projection.virtual_width : ℚ),
                              y := (projection.virtual_height : ℚ) } },
        transform := Transform.from_xyz
          (border_left projection camera - (projection.virtual_width : ℚ))
          (border_bottom projection camera - (projection.virtual_height : ℚ))
          (projection.far - 0.2),
        border := Border.Bottom } := rfl

theorem mem_resize_borders_initial (cameras : BoxFitProjection × Transform)
    (e : BorderEntity) (he : e ∈ initial_borders) :
    place_border cameras.1 cameras.2 e
      ∈ resize_borders (some cameras) initial_borders :=
  List.mem_map_of_mem _ he

/-- Claim C4 (amended): every point of the visible region of the
projection that lies outside the virtual-resolution rectangle and within
the outer frame of the bars is covered by one of the four border rectangles
produced by resize_borders.  (The unamended claim, coverage of the whole
visible region regardless of aspect ratio, fails: see the
counterexample.) -/
theorem borders_occlude_within_frame (projection : BoxFitProjection)
    (camera : Transform) (x y : ℚ)
    (hvis : visible_contains projection camera x y)
    (hframe : outer_frame_contains projection camera x y)
    (hout : ¬ virtual_rect_contains projection camera x y) :
    covered_by_borders projection camera x y := by
  obtain ⟨hf1, hf2, hf3, hf4⟩ := hframe
  by_cases hx1 : x ≤ border_left projection camera
  · refine ⟨place_border projection camera spawn_left,
      mem_resize_borders_initial (projection, camera) spawn_left (by simp [initial_borders]), ?_⟩
    rw [place_border_spawn_left]
    simp only [coversPoint, Transform.from_xyz]
    refine ⟨by linarith, by linarith, by linarith, by linarith⟩
  by_cases hx2 : border_left projection camera + (projection.virtual_width : ℚ) ≤ x
  · refine ⟨place_border projection camera spawn_right,
      mem_resize_borders_initial (projection, camera) spawn_right (by simp [initial_borders]), ?_⟩
    rw [place_border_spawn_right]
    simp only [coversPoint, Transform.from_xyz]
    refine ⟨by linarith, by linarith, by linarith, by linarith⟩
  by_cases hy1 : y ≤ border_bottom projection camera
  · refine ⟨place_border projection camera spawn_bottom,
      mem_resize_borders_initial (projection, camera) spawn_bottom (by simp [initial_borders]), ?_⟩
    rw [place_border_spawn_bottom]
    simp only [coversPoint, Transform.from_xyz]
    refine ⟨by linarith, by linarith, by linarith, by linarith⟩
  by_cases hy2 : border_bottom projection camera + (projection.virtual_height : ℚ) ≤ y
  · refine ⟨place_border projection camera spawn_top,
      mem_resize_borders_initial (projection, camera) spawn_top (by simp [initial_borders]), ?_⟩
    rw [place_border_spawn_top]
    simp only [coversPoint, Transform.from_xyz]
    refine ⟨by linarith, by linarith, by linarith, by linarith⟩
  · exact absurd ⟨le_of_not_le hx1, le_of_not_le hx2,
      le_of_not_le hy1, le_of_not_le hy2⟩ hout

/-- A 100 × 100 virtual resolution fitted into a 400 × 100 window: zoom is
min(400/100, 100/100) = 1, so the visible region is 400 wide — wider than
the 3-virtual-width outer frame of the border bars. -/
def wide_projection : BoxFitProjection :=
  update (from_resolution 100 100) 400 100

theorem wide_projection_fields :
    wide_projection.left = -200 ∧ wide_projection.right = 200 ∧
    wide_projection.bottom = -50 ∧ wide_projection.top = 50 ∧
    wide_projection.virtual_width = 100 ∧ wide_projection.virtual_height = 100 ∧
    wide_projection.centered = true := by
  norm_num [wide_projection, from_resolution, update, truncQ, Int.tdiv]

/-- Claim C4 counterexample: for the 100 × 100 virtual resolution in a
400 × 100 window with the camera at the origin, the point (-200, 0) lies
in the visible region and outside the virtual-resolution rectangle, yet
no border rectangle covers it — the four bars do not occlude the whole
outside of the virtual rectangle for every aspect ratio. -/
theorem borders_occlude_outside_cex :
    ¬ borders_occlude_outside wide_projection (Transform.from_xyz 0 0 0) := by
  intro hocc
  have hvis : visible_contains wide_projection (Transform.from_xyz 0 0 0)
      (-200) 0 := by
    norm_num [visible_contains, Transform.from_xyz, wide_projection,
      from_resolution, update, truncQ, Int.tdiv]
  have hout : ¬ virtual_rect_contains wide_projection (Transform.from_xyz 0 0 0)
      (-200) 0 := by
    norm_num [virtual_rect_contains, border_left, border_bottom,
      Transform.from_xyz, wide_projection, from_resolution, update, truncQ,
      rround, Int.tdiv]
  have hcov := hocc (-200) 0 hvis hout
  norm_num [covered_by_borders, resize_borders, initial_borders, place_border,
    spawn_left, spawn_right, spawn_top, spawn_bottom, coversPoint,
    border_left, border_bottom, Transform.from_xyz,
    wide_projection, from_resolution, update, truncQ, rround, Int.tdiv] at hcov

theorem wide_projection_point_visible :
    visible_contains wide_projection (Transform.from_xyz 0 0 0) (-100) 0 := by
  norm_num [visible_contains, Transform.from_xyz, wide_projection,
    from_resolution, update, truncQ, Int.tdiv]

theorem wide_projection_point_frame :
    outer_frame_contains wide_projection (Transform.from_xyz 0 0 0) (-100) 0 := by
  norm_num [outer_frame_contains, border_left, border_bottom,
    Transform.from_xyz, wide_projection, from_resolution, update, truncQ,
    rround, Int.tdiv]

theorem wide_projection_point_outside :
    ¬ virtual_rect_contains wide_projection (Transform.from_xyz 0 0 0)
      (-100) 0 := by
  norm_num [virtual_rect_contains, border_left, border_bottom,
    Transform.from_xyz, wide_projection, from_resolution, update, truncQ,
    rround, Int.tdiv]

theorem borders_occlude_within_frame_witness :
    visible_contains wide_projection (Transform.from_xyz 0 0 0) (-100) 0 ∧
    outer_frame_contains wide_projection (Transform.from_xyz 0 0 0) (-100) 0 ∧
    ¬ virtual_rect_contains wide_projection (Transform.from_xyz 0 0 0)
        (-100) 0 ∧
    covered_by_borders wide_projection (Transform.from_xyz 0 0 0) (-100) 0 :=
  ⟨wide_projection_point_visible, wide_projection_point_frame,
   wide_projection_point_outside,
   borders_occlude_within_frame wide_projection (Transform.from_xyz 0 0 0)
     (-100) 0 wide_projection_point_visible wide_projection_point_frame
     wide_projection_point_outside⟩

end BoxFit
